import Mathlib

/-!
Shallow embedding of the clux session registry and reconciliation engine
(src/clux/db.py, src/clux/cli.py, src/clux/tmux.py, src/clux/tui/app.py).

Conventions of the embedding:
* timestamps (ISO strings in the source) are modelled as naturals;
* session ids (UUID strings in the source) are modelled as naturals;
* the SQLite table `sessions` is modelled as a `List Session` of rows;
* the tmux process snapshot (`tmux.list_sessions`) is a `List TmuxSession`;
* the Claude log-directory scan `claude.find_session_after_time` is an
  external pure environment, modelled as a function parameter;
* store writes performed by an operation are recorded in an explicit
  `StoreOp` log so that "exactly when" write conditions can be stated.
-/

/-- Session status values used by the program: idle / detached / active / archived. -/
inductive Status
  | idle
  | detached
  | active
  | archived
deriving DecidableEq, Repr

/-- A row of the `sessions` table (db.py, dataclass `Session` / SCHEMA). -/
structure Session where
  id : Nat
  name : String
  working_directory : String
  status : Status
  created_at : Nat
  tmux_session : Option String := none
  claude_session_id : Option String := none
  last_activity : Option Nat := none
  archived_at : Option Nat := none
deriving DecidableEq, Repr

/-- A live tmux session as reported by `tmux.list_sessions` (tmux.py, `TmuxSession`). -/
structure TmuxSession where
  name : String
  attached : Bool
  windows : Nat
deriving DecidableEq, Repr

/-- A store write performed by an operation (update_status / update_claude_session_id). -/
inductive StoreOp
  | setStatus (id : Nat) (st : Status)
  | setClaudeId (id : Nat) (cid : String)
deriving DecidableEq, Repr

/-- Selects the status writes out of an operation log. -/
def statusWrites (ops : List StoreOp) : List StoreOp :=
  ops.filter (fun o => match o with | .setStatus _ _ => true | .setClaudeId _ _ => false)

/-- ASCII alphanumeric, the character class [a-zA-Z0-9] of the source regex. -/
def isAlnumAscii (c : Char) : Bool :=
  (('a' ≤ c && c ≤ 'z') || ('A' ≤ c && c ≤ 'Z') || ('0' ≤ c && c ≤ '9'))

/-- The character class [a-zA-Z0-9_-] of the source regex. -/
def isNameBodyChar (c : Char) : Bool :=
  isAlnumAscii c || c == '_' || c == '-'

/-- Python re.match of SESSION_NAME_PATTERN = ^[a-zA-Z0-9][a-zA-Z0-9_-]{0,49}$
(db.py line 22).  Python's un-escaped final anchor matches at the end of the
string OR just before one trailing newline, which this embedding reproduces:
after the first alphanumeric character, a greedy run of at most 49 body
characters must be followed by nothing or by a single trailing newline. -/
def matchesSessionNamePattern (s : List Char) : Bool :=
  match s with
  | [] => false
  | c :: rest =>
      isAlnumAscii c &&
      (rest.takeWhile isNameBodyChar).length ≤ 49 &&
      (rest.dropWhile isNameBodyChar = [] || rest.dropWhile isNameBodyChar = ['\n'])

/-- db.py `validate_session_name`: returns (is_valid, error_message). -/
def validate_session_name (name : String) : Bool × String :=
  if name.length = 0 then
    (false, "Session name cannot be empty")
  else if name.length > 50 then
    (false, "Session name must be 50 characters or less")
  else if matchesSessionNamePattern name.data then
    (true, "")
  else
    (false, "Session name must start with alphanumeric and contain only letters, numbers, hyphens, and underscores")

/-- Validity of a session name in the words of the specification: non-empty,
at most 50 characters, first character alphanumeric, every remaining character
alphanumeric, hyphen or underscore.  Spec-side definition, to be compared with
`validate_session_name` above. -/
def specSessionNameValid (name : String) : Bool :=
  match name.data with
  | [] => false
  | c :: cs => isAlnumAscii c && name.length ≤ 50 && cs.all isNameBodyChar

/-- Errors raised by the store (db.py `DatabaseError`); the only distinguished
cause relevant here is the UNIQUE(name, working_directory) violation. -/
inductive DBError
  | duplicateSession
deriving DecidableEq, Repr

/-- db.py `SessionDB.create_session`: inserts a fresh row with status 'idle',
created_at = last_activity = now, no claude_session_id and no archived_at;
fails with the duplicate-session error when a row with the same
(name, working_directory) already exists (the UNIQUE constraint). -/
def create_session (now newId : Nat) (db : List Session) (name wd : String)
    (tmux : Option String) : Except DBError (List Session × Session) :=
  if db.any (fun s => s.name == name && s.working_directory == wd) then
    .error .duplicateSession
  else
    let s : Session :=
      { id := newId, name := name, working_directory := wd, status := .idle,
        created_at := now, tmux_session := tmux, claude_session_id := none,
        last_activity := some now, archived_at := none }
    .ok (db ++ [s], s)

/-- db.py `SessionDB.get_session`: first row with the given name and directory. -/
def get_session (db : List Session) (name wd : String) : Option Session :=
  db.find? (fun s => s.name == name && s.working_directory == wd)

/-- db.py `SessionDB.get_session_by_id`: first row with the given id. -/
def get_session_by_id (db : List Session) (id : Nat) : Option Session :=
  db.find? (fun s => s.id == id)

/-- db.py `SessionDB.update_status`: sets status and stamps last_activity;
when the new status is 'archived' it additionally stamps archived_at.
(The non-archived branch leaves archived_at untouched.) -/
def update_status (now : Nat) (db : List Session) (id : Nat) (st : Status) :
    List Session :=
  db.map (fun s =>
    if s.id == id then
      if st == Status.archived then
        { s with status := st, archived_at := some now, last_activity := some now }
      else
        { s with status := st, last_activity := some now }
    else s)

/-- db.py `SessionDB.update_claude_session_id`. -/
def update_claude_session_id (db : List Session) (id : Nat) (cid : String) :
    List Session :=
  db.map (fun s => if s.id == id then { s with claude_session_id := some cid } else s)

/-- db.py `SessionDB.delete_session`: DELETE FROM sessions WHERE id = ?. -/
def delete_session (db : List Session) (id : Nat) : List Session :=
  db.filter (fun s => !(s.id == id))

/-- db.py `SessionDB.restore_session`:
UPDATE sessions SET status = 'idle', archived_at = NULL WHERE id = ?. -/
def restore_session (db : List Session) (id : Nat) : List Session :=
  db.map (fun s =>
    if s.id == id then { s with status := Status.idle, archived_at := none } else s)

/-- Sort key for ORDER BY last_activity DESC: SQLite sorts NULL below any value. -/
def laKey (s : Session) : Nat :=
  match s.last_activity with
  | some t => t + 1
  | none => 0

/-- Insertion step of the descending-by-last_activity ordering. -/
def insertByLA (s : Session) : List Session → List Session
  | [] => [s]
  | t :: rest => if laKey t < laKey s then s :: t :: rest else t :: insertByLA s rest

/-- ORDER BY last_activity DESC, modelled as an insertion sort. -/
def sortByLA (l : List Session) : List Session :=
  l.foldr insertByLA []

/-- db.py `SessionDB.list_sessions`: optionally excludes archived rows,
optionally filters to one working directory, orders by last_activity DESC. -/
def list_sessions (db : List Session) (includeArchived : Bool)
    (wd : Option String) : List Session :=
  let l1 := if includeArchived then db else db.filter (fun s => !(s.status == Status.archived))
  let l2 := match wd with
    | some d => l1.filter (fun s => s.working_directory == d)
    | none => l1
  sortByLA l2

/-- tmux.py `session_exists` over a snapshot: some listed session has the name. -/
def session_exists (snapshot : List TmuxSession) (name : String) : Bool :=
  snapshot.any (fun s => s.name == name)

/-- tmux.py `is_attached` over a snapshot: attached flag of the first session
with the name, false when absent. -/
def is_attached (snapshot : List TmuxSession) (name : String) : Bool :=
  match snapshot.find? (fun s => s.name == name) with
  | some s => s.attached
  | none => false

/-- External world observed by a reconciliation pass: the point-in-time tmux
snapshot, and `claude.find_session_after_time` modelled as a pure function of
(working_directory, timestamp) since it only reads the Claude log directory. -/
structure Env where
  snapshot : List TmuxSession
  findSessionAfter : String → Nat → Option String

/-- The new status computed by `sync_session_status` (cli.py lines 45-52):
active when the tmux session exists and is attached, detached when it exists
unattached, idle when it is absent from the snapshot. -/
def computeNewStatus (snapshot : List TmuxSession) (tname : String) : Status :=
  if session_exists snapshot tname then
    if is_attached snapshot tname then Status.active else Status.detached
  else Status.idle

/-- Status half of cli.py `sync_session_status` (lines 45-56): when the session
has a tmux name, compute the new status; persist it (and mutate the in-memory
session) exactly when it differs from the current status and the current
status is not archived. -/
def syncStatusPart (snapshot : List TmuxSession) (s : Session) :
    Session × List StoreOp :=
  match s.tmux_session with
  | none => (s, [])
  | some tname =>
      let ns := computeNewStatus snapshot tname
      if ns ≠ s.status ∧ s.status ≠ Status.archived then
        ({ s with status := ns }, [StoreOp.setStatus s.id ns])
      else (s, [])

/-- cli.py `_try_capture_claude_id` (lines 65-80): look for a Claude session
newer than the session's creation time; on a hit persist it and mutate the
in-memory session. -/
def tryCaptureClaudeId (env : Env) (s : Session) : Session × List StoreOp :=
  match env.findSessionAfter s.working_directory s.created_at with
  | some cid => ({ s with claude_session_id := some cid }, [StoreOp.setClaudeId s.id cid])
  | none => (s, [])

/-- Claude-id half of cli.py `sync_session_status` (lines 58-60): attempted
only while claude_session_id is unset. -/
def syncClaudePart (env : Env) (s : Session) : Session × List StoreOp :=
  match s.claude_session_id with
  | none => tryCaptureClaudeId env s
  | some _ => (s, [])

/-- cli.py `sync_session_status` (lines 43-62): the status sync followed by
the claude-id backfill, with the store writes of both recorded in order. -/
def sync_session_status (env : Env) (s : Session) : Session × List StoreOp :=
  let p1 := syncStatusPart env.snapshot s
  let p2 := syncClaudePart env p1.1
  (p2.1, p1.2 ++ p2.2)

/-- A sequence of reconciliation passes, each with its own observed world. -/
def syncMany (envs : List Env) (s : Session) : Session × List StoreOp :=
  match envs with
  | [] => (s, [])
  | e :: rest =>
      let p1 := sync_session_status e s
      let p2 := syncMany rest p1.1
      (p2.1, p1.2 ++ p2.2)

/-- tui/app.py `CluxApp.cleanup_orphaned_tmux` (lines 212-228): collect the
tmux names referenced by any stored row (including archived), then kill every
snapshot session whose name starts with the reserved prefix and is not
referenced.  Returns the list of killed names. -/
def cleanup_orphaned_tmux (snapshot : List TmuxSession) (db : List Session) :
    List String :=
  let tracked := (list_sessions db true none).filterMap (fun s => s.tmux_session)
  (snapshot.map (fun t => t.name)).filter
    (fun n => n.startsWith ("clux-") && !(tracked.contains n))

/-- Outcome of the `next` selection (cli.py `next_cmd`, lines 474-494). -/
inductive NextResult
  | noOther
  | notInList
  | switchTo (s : Session)
deriving DecidableEq, Repr

/-- The index-finding loop of cli.py `next_cmd` (lines 482-486): first index
whose row id equals the current session's id. -/
def findSessionIndex (sid : Nat) : List Session → Option Nat
  | [] => none
  | s :: rest => if s.id == sid then some 0 else (findSessionIndex sid rest).map (· + 1)

/-- Selection logic of cli.py `next_cmd` (lines 474-494): with the non-archived
sessions of the current directory (store order), report "no other sessions"
when there are at most one, "not in list" when the current session's id is not
among them, and otherwise the sibling at (index + 1) mod length. -/
def next_cmd_select (sessions : List Session) (current : Session) : NextResult :=
  if sessions.length ≤ 1 then .noOther
  else
    match findSessionIndex current.id sessions with
    | none => .notInList
    | some i => .switchTo (sessions.getD ((i + 1) % sessions.length) current)

/-- Total step function derived from `next_cmd_select`: move to the chosen
sibling, staying put when there is none. -/
def nextStep (sessions : List Session) (current : Session) : Session :=
  match next_cmd_select sessions current with
  | .switchTo t => t
  | _ => current

/-- The non-archived sessions of one working directory in store order, the
sibling list used by cli.py `next_cmd` (line 475). -/
def sessionsFor (db : List Session) (wd : String) : List Session :=
  list_sessions db false (some wd)

/-- Outcome of the creation flow (cli.py `new_cmd`). -/
inductive NewResult
  | invalidName (msg : String)
  | alreadyExists
  | storeError (e : DBError)
  | tmuxCreateFailed
  | created (s : Session)
deriving DecidableEq, Repr

/-- Creation phase of cli.py `new_cmd` (lines 97-143): validate the name,
refuse when (name, cwd) already exists, create the registry row, then create
the tmux session — `tmuxOk` tells whether that external call succeeds; on
failure the freshly created row is deleted before the command exits (the
rollback of lines 129-132); on success the session is marked active.
`tname` stands for make_tmux_name(name, cwd) (an md5-based external pure
function); the later attach / id-capture phase does not touch the registry
row's existence and is not modelled. -/
def new_cmd_create_phase (now newId : Nat) (tmuxOk : Bool) (db : List Session)
    (name cwd tname : String) : List Session × NewResult :=
  if !(validate_session_name name).1 then
    (db, .invalidName (validate_session_name name).2)
  else
    match get_session db name cwd with
    | some _ => (db, .alreadyExists)
    | none =>
        match create_session now newId db name cwd (some tname) with
        | .error e => (db, .storeError e)
        | .ok (db1, s) =>
            if !tmuxOk then
              (delete_session db1 s.id, .tmuxCreateFailed)
            else
              (update_status now db1 s.id Status.active, .created s)

/-! Helper lemmas shared by the claim theorems. -/

theorem statusWrites_append (a b : List StoreOp) :
    statusWrites (a ++ b) = statusWrites a ++ statusWrites b :=
  List.filter_append ..

theorem mem_insertByLA (s x : Session) (l : List Session) :
    x ∈ insertByLA s l ↔ x = s ∨ x ∈ l := by
  induction l with
  | nil => simp [insertByLA]
  | cons t rest ih =>
      unfold insertByLA
      by_cases h : laKey t < laKey s
      · simp [h]
      · simp [h, ih]
        tauto

theorem mem_sortByLA (x : Session) (l : List Session) :
    x ∈ sortByLA l ↔ x ∈ l := by
  induction l with
  | nil => simp [sortByLA]
  | cons t rest ih =>
      show x ∈ insertByLA t (sortByLA rest) ↔ _
      rw [mem_insertByLA]
      simp [ih]

/-- Claim C4 (counterexample input): an archived row with a non-null archived_at. -/
def c4row : Session :=
  { id := 1, name := "w", working_directory := "d", status := Status.archived,
    created_at := 0, archived_at := some 5 }

/-- Claim C4, counterexample: setStatus (update_status) to the non-archived
status 'idle' does NOT clear archived_at — on a row archived at time 5, after
update_status to 'idle' the stored archived_at is still 5, not null, refuting
"after setStatus to a non-archived status, archived_at is null". -/
theorem C4_counterexample :
    ¬ ((get_session_by_id (update_status 10 [c4row] 1 Status.idle) 1).map
        Session.archived_at = some none) := by
  decide

/-- Claim C4 (amended): update_status stamps last_activity on the targeted row
and stamps archived_at exactly when the new status is 'archived'; it never
clears archived_at (setting a non-archived status leaves the prior archived_at
in place — clearing happens only in restore); all other fields are unchanged. -/
theorem C4_update_status_amended (now : Nat) (db : List Session) (id : Nat)
    (st : Status) (i : Nat) (s : Session) (h : db[i]? = some s) :
    ∃ r, (update_status now db id st)[i]? = some r ∧
      r.status = (if s.id = id then st else s.status) ∧
      r.last_activity = (if s.id = id then some now else s.last_activity) ∧
      r.archived_at = (if s.id = id ∧ st = Status.archived then some now else s.archived_at) ∧
      r.id = s.id ∧ r.name = s.name ∧ r.working_directory = s.working_directory ∧
      r.created_at = s.created_at ∧ r.tmux_session = s.tmux_session ∧
      r.claude_session_id = s.claude_session_id := by
  unfold update_status
  rw [List.getElem?_map, h, Option.map_some']
  refine ⟨_, rfl, ?_⟩
  by_cases hid : s.id = id <;> by_cases hst : st = Status.archived <;>
    simp [hid, hst]

/-- Claim C4, witness: the amended theorem evaluated on the counterexample row
(update to 'idle' at time 10: status idle, last_activity 10, archived_at
still 5). -/
theorem C4_update_status_amended_witness :
    ∃ r, (update_status 10 [c4row] 1 Status.idle)[0]? = some r ∧
      r.status = (if c4row.id = 1 then Status.idle else c4row.status) ∧
      r.last_activity = (if c4row.id = 1 then some 10 else c4row.last_activity) ∧
      r.archived_at = (if c4row.id = 1 ∧ Status.idle = Status.archived then some 10
        else c4row.archived_at) ∧
      r.id = c4row.id ∧ r.name = c4row.name ∧
      r.working_directory = c4row.working_directory ∧
      r.created_at = c4row.created_at ∧ r.tmux_session = c4row.tmux_session ∧
      r.claude_session_id = c4row.claude_session_id :=
  C4_update_status_amended 10 [c4row] 1 Status.idle 0 c4row rfl

/-- Claim C10: restore_session sets the targeted row's status to 'idle' and
its archived_at to null unconditionally (no precondition on the current
status), and leaves every other field unchanged — in particular last_activity
is not stamped, unlike update_status. -/
theorem C10_restore_frame (db : List Session) (id : Nat) (i : Nat) (s : Session)
    (h : db[i]? = some s) :
    ∃ r, (restore_session db id)[i]? = some r ∧
      r.status = (if s.id = id then Status.idle else s.status) ∧
      r.archived_at = (if s.id = id then none else s.archived_at) ∧
      r.id = s.id ∧ r.name = s.name ∧ r.working_directory = s.working_directory ∧
      r.created_at = s.created_at ∧ r.last_activity = s.last_activity ∧
      r.tmux_session = s.tmux_session ∧ r.claude_session_id = s.claude_session_id := by
  unfold restore_session
  rw [List.getElem?_map, h, Option.map_some']
  refine ⟨_, rfl, ?_⟩
  by_cases hid : s.id = id <;> simp [hid]

/-- Claim C10 (witness input): a non-archived row, to exercise the
"regardless of the session's current status" part. -/
def c10row : Session :=
  { id := 2, name := "r", working_directory := "d", status := Status.active,
    created_at := 1, last_activity := some 7, archived_at := some 3 }

/-- Claim C10, witness: restoring an active row forces status idle, clears
archived_at, and leaves last_activity at 7. -/
theorem C10_restore_frame_witness :
    ∃ r, (restore_session [c10row] 2)[0]? = some r ∧
      r.status = (if c10row.id = 2 then Status.idle else c10row.status) ∧
      r.archived_at = (if c10row.id = 2 then none else c10row.archived_at) ∧
      r.id = c10row.id ∧ r.name = c10row.name ∧
      r.working_directory = c10row.working_directory ∧
      r.created_at = c10row.created_at ∧ r.last_activity = c10row.last_activity ∧
      r.tmux_session = c10row.tmux_session ∧
      r.claude_session_id = c10row.claude_session_id :=
  C10_restore_frame [c10row] 2 0 c10row rfl

/-- Claim C7: create_session fails with the duplicate-session error exactly
when a row with the same (name, working_directory) pair exists — so the same
name under a different directory succeeds — and a successfully created session
has status 'idle' and no claude_session_id. -/
theorem C7_create_session (now newId : Nat) (db : List Session)
    (name wd : String) (tm : Option String) :
    match create_session now newId db name wd tm with
    | .error e => e = DBError.duplicateSession ∧
        ∃ s ∈ db, s.name = name ∧ s.working_directory = wd
    | .ok (_, s) => (∀ t ∈ db, ¬(t.name = name ∧ t.working_directory = wd)) ∧
        s.status = Status.idle ∧ s.claude_session_id = none ∧
        s.name = name ∧ s.working_directory = wd := by
  unfold create_session
  by_cases hd : db.any (fun s => s.name == name && s.working_directory == wd) = true
  · simp only [hd, if_true]
    exact ⟨trivial, by simpa using hd⟩
  · simp only [hd, if_false]
    simp only [Bool.false_eq_true, if_false]
    refine ⟨?_, trivial, trivial, trivial, trivial⟩
    intro t ht hc
    exact hd (List.any_eq_true.mpr ⟨t, ht, by simp [hc.1, hc.2]⟩)

/-- Claim C8: when the multiplexer (tmux) creation step fails, the creation
flow leaves the registry exactly as it was: the freshly inserted row is
deleted again before the command returns (rollback), under the invariant that
the fresh row id does not collide with an existing row. -/
theorem C8_rollback (now newId : Nat) (db : List Session)
    (name cwd tname : String) (hfresh : ∀ s ∈ db, s.id ≠ newId) :
    (new_cmd_create_phase now newId false db name cwd tname).1 = db := by
  unfold new_cmd_create_phase
  cases hv : (validate_session_name name).1 with
  | false => simp [hv]
  | true =>
      simp only [hv, Bool.not_true, Bool.false_eq_true, if_false]
      cases hg : get_session db name cwd with
      | some s => rfl
      | none =>
          unfold create_session
          by_cases hd : db.any (fun s => s.name == name && s.working_directory == cwd) = true
          · simp [hd]
          · have h1 : db.filter (fun s => !(s.id == newId)) = db :=
              List.filter_eq_self.mpr (by intro s hs; simpa using hfresh s hs)
            simp [hd, delete_session, List.filter_append, h1]

/-- Claim C8 (witness input): empty registry. -/
def c8db : List Session := []

/-- Claim C8, witness: creating "a" in an empty registry with a failing tmux
creation leaves the registry empty. -/
theorem C8_rollback_witness :
    (new_cmd_create_phase 0 7 false c8db "a" "/d" "clux-a-x").1 = c8db :=
  C8_rollback 0 7 c8db "a" "/d" "clux-a-x" (by intro s hs; cases hs)

theorem syncClaudePart_cases (env : Env) (s : Session) :
    syncClaudePart env s = (s, []) ∨
    ∃ cid, s.claude_session_id = none ∧
      env.findSessionAfter s.working_directory s.created_at = some cid ∧
      syncClaudePart env s =
        ({ s with claude_session_id := some cid }, [StoreOp.setClaudeId s.id cid]) := by
  cases hc : s.claude_session_id with
  | none =>
      cases hf : env.findSessionAfter s.working_directory s.created_at with
      | none =>
          left
          simp [syncClaudePart, tryCaptureClaudeId, hc, hf]
      | some cid =>
          right
          exact ⟨cid, rfl, rfl, by simp [syncClaudePart, tryCaptureClaudeId, hc, hf]⟩
  | some c =>
      left
      simp [syncClaudePart, hc]

theorem syncClaudePart_preserves (env : Env) (s : Session) :
    (syncClaudePart env s).1.status = s.status ∧
    (syncClaudePart env s).1.tmux_session = s.tmux_session ∧
    (syncClaudePart env s).1.working_directory = s.working_directory ∧
    (syncClaudePart env s).1.created_at = s.created_at ∧
    (syncClaudePart env s).1.id = s.id := by
  rcases syncClaudePart_cases env s with h | ⟨cid, hc, hf, h⟩ <;> rw [h] <;>
    exact ⟨rfl, rfl, rfl, rfl, rfl⟩

theorem syncClaudePart_statusWrites (env : Env) (s : Session) :
    statusWrites (syncClaudePart env s).2 = [] := by
  rcases syncClaudePart_cases env s with h | ⟨cid, hc, hf, h⟩ <;> rw [h] <;>
    simp [statusWrites]

theorem syncClaudePart_idem (env : Env) (s : Session) :
    syncClaudePart env (syncClaudePart env s).1 = ((syncClaudePart env s).1, []) := by
  rcases syncClaudePart_cases env s with h | ⟨cid, hc, hf, h⟩
  · rw [h]
    exact h
  · rw [h]
    simp [syncClaudePart]

theorem syncStatusPart_noop (snap : List TmuxSession) (s : Session)
    (h : ∀ t, s.tmux_session = some t →
      computeNewStatus snap t = s.status ∨ s.status = Status.archived) :
    syncStatusPart snap s = (s, []) := by
  cases htm : s.tmux_session with
  | none => simp [syncStatusPart, htm]
  | some tname =>
      simp only [syncStatusPart, htm]
      rw [if_neg]
      intro hc
      rcases h tname htm with h1 | h1
      · exact hc.1 h1
      · exact hc.2 h1

theorem syncStatusPart_cases (snap : List TmuxSession) (s : Session) :
    syncStatusPart snap s = (s, []) ∨
    ∃ t, s.tmux_session = some t ∧ s.status ≠ Status.archived ∧
      computeNewStatus snap t ≠ s.status ∧
      syncStatusPart snap s =
        ({ s with status := computeNewStatus snap t },
         [StoreOp.setStatus s.id (computeNewStatus snap t)]) := by
  cases htm : s.tmux_session with
  | none =>
      left
      simp [syncStatusPart, htm]
  | some tname =>
      by_cases hc : computeNewStatus snap tname ≠ s.status ∧ s.status ≠ Status.archived
      · right
        refine ⟨tname, rfl, hc.2, hc.1, ?_⟩
        simp only [syncStatusPart, htm]
        rw [if_pos hc]
      · left
        simp only [syncStatusPart, htm]
        rw [if_neg hc]

theorem syncStatusPart_result_stable (snap : List TmuxSession) (s : Session) :
    ∀ u, (syncStatusPart snap s).1.tmux_session = some u →
      computeNewStatus snap u = (syncStatusPart snap s).1.status ∨
      (syncStatusPart snap s).1.status = Status.archived := by
  intro u hu
  rcases syncStatusPart_cases snap s with h | ⟨t, htm, hna, hne, h⟩
  · rw [h] at hu ⊢
    dsimp only at hu ⊢
    by_cases h2 : computeNewStatus snap u = s.status
    · exact Or.inl h2
    · by_cases h3 : s.status = Status.archived
      · exact Or.inr h3
      · exfalso
        have hfire : syncStatusPart snap s =
            ({ s with status := computeNewStatus snap u },
             [StoreOp.setStatus s.id (computeNewStatus snap u)]) := by
          simp only [syncStatusPart, hu]
          rw [if_pos ⟨h2, h3⟩]
        rw [h] at hfire
        have hst : s.status = computeNewStatus snap u :=
          congrArg (fun p => p.1.status) hfire
        exact h2 hst.symm
  · rw [h] at hu ⊢
    dsimp only at hu ⊢
    rw [htm] at hu
    injection hu with h4
    subst h4
    exact Or.inl rfl

/-- Claim C1: for a session whose status is not archived and whose tmux name
is set, reconciliation computes the new status as active when the name is in
the snapshot with a client attached, detached when it is there unattached, and
idle when absent (computeNewStatus), and issues the setStatus store write
exactly when that new status differs from the current one. -/
theorem C1_reconcile_status (env : Env) (s : Session) (tname : String)
    (h1 : s.status ≠ Status.archived) (h2 : s.tmux_session = some tname) :
    (sync_session_status env s).1.status = computeNewStatus env.snapshot tname ∧
    statusWrites (sync_session_status env s).2 =
      (if computeNewStatus env.snapshot tname = s.status then []
       else [StoreOp.setStatus s.id (computeNewStatus env.snapshot tname)]) := by
  have hsp : syncStatusPart env.snapshot s =
      (if computeNewStatus env.snapshot tname = s.status then (s, [])
       else ({ s with status := computeNewStatus env.snapshot tname },
             [StoreOp.setStatus s.id (computeNewStatus env.snapshot tname)])) := by
    by_cases hns : computeNewStatus env.snapshot tname = s.status
    · rw [if_pos hns]
      apply syncStatusPart_noop
      intro t ht
      rw [h2] at ht
      injection ht with ht2
      subst ht2
      exact Or.inl hns
    · rw [if_neg hns]
      simp only [syncStatusPart, h2]
      rw [if_pos ⟨hns, h1⟩]
  unfold sync_session_status
  rw [hsp]
  by_cases hns : computeNewStatus env.snapshot tname = s.status
  · rw [if_pos hns, if_pos hns]
    dsimp only
    constructor
    · rw [(syncClaudePart_preserves env s).1, hns]
    · rw [statusWrites_append, syncClaudePart_statusWrites]
      rfl
  · rw [if_neg hns, if_neg hns]
    dsimp only
    constructor
    · rw [(syncClaudePart_preserves env _).1]
    · rw [statusWrites_append, syncClaudePart_statusWrites]
      rfl

/-- Claim C1 (witness inputs): a snapshot holding an attached session "t1" and
an idle logical session pointing at it. -/
def c1env : Env :=
  { snapshot := [{ name := "t1", attached := true, windows := 1 }],
    findSessionAfter := fun _ _ => none }

/-- Claim C1 (witness input): the logical session. -/
def c1s : Session :=
  { id := 3, name := "s", working_directory := "d", status := Status.idle,
    created_at := 0, tmux_session := some "t1" }

/-- Claim C1, witness: on the concrete inputs the status becomes active and
one setStatus write is issued. -/
theorem C1_reconcile_status_witness :
    (sync_session_status c1env c1s).1.status = computeNewStatus c1env.snapshot "t1" ∧
    statusWrites (sync_session_status c1env c1s).2 =
      (if computeNewStatus c1env.snapshot "t1" = c1s.status then []
       else [StoreOp.setStatus c1s.id (computeNewStatus c1env.snapshot "t1")]) :=
  C1_reconcile_status c1env c1s "t1" (by decide) rfl

theorem sync_archived (env : Env) (s : Session) (h : s.status = Status.archived) :
    (sync_session_status env s).1.status = Status.archived ∧
    statusWrites (sync_session_status env s).2 = [] := by
  have hsp : syncStatusPart env.snapshot s = (s, []) := by
    apply syncStatusPart_noop
    intro t ht
    exact Or.inr h
  unfold sync_session_status
  rw [hsp]
  dsimp only
  constructor
  · rw [(syncClaudePart_preserves env s).1, h]
  · rw [statusWrites_append, syncClaudePart_statusWrites]
    rfl

/-- Claim C2: a session whose status is archived keeps the status archived
under any sequence of reconciliation passes, whatever each pass observes, and
no pass issues any setStatus store write for it — its persisted status never
changes through reconcile. -/
theorem C2_archived_sticky (envs : List Env) (s : Session)
    (h : s.status = Status.archived) :
    (syncMany envs s).1.status = Status.archived ∧
    statusWrites (syncMany envs s).2 = [] := by
  induction envs generalizing s with
  | nil => exact ⟨h, rfl⟩
  | cons e rest ih =>
      have h1 := sync_archived e s h
      have h2 := ih (sync_session_status e s).1 h1.1
      unfold syncMany
      dsimp only
      constructor
      · exact h2.1
      · rw [statusWrites_append, h1.2, h2.2]
        rfl

/-- Claim C2 (witness inputs): a world where the archived session's tmux name
is live and attached, the strongest temptation to flip the status. -/
def c2env : Env :=
  { snapshot := [{ name := "t2", attached := true, windows := 1 }],
    findSessionAfter := fun _ _ => none }

/-- Claim C2 (witness input): an archived session pointing at live tmux "t2". -/
def c2s : Session :=
  { id := 4, name := "z", working_directory := "d", status := Status.archived,
    created_at := 0, tmux_session := some "t2", archived_at := some 2 }

/-- Claim C2, witness: two reconciliation passes over the archived session
leave it archived and issue no status write. -/
theorem C2_archived_sticky_witness :
    (syncMany [c2env, c2env] c2s).1.status = Status.archived ∧
    statusWrites (syncMany [c2env, c2env] c2s).2 = [] :=
  C2_archived_sticky [c2env, c2env] c2s rfl

/-- Claim C5: reconciliation is idempotent — re-running it on its own result
with the same observed world returns that result unchanged and performs no
store write at all (neither a status write nor an external-id write). -/
theorem C5_reconcile_idempotent (env : Env) (s : Session) :
    sync_session_status env (sync_session_status env s).1 =
      ((sync_session_status env s).1, []) := by
  have hq : ∀ u, (syncClaudePart env (syncStatusPart env.snapshot s).1).1.tmux_session = some u →
      computeNewStatus env.snapshot u =
        (syncClaudePart env (syncStatusPart env.snapshot s).1).1.status ∨
      (syncClaudePart env (syncStatusPart env.snapshot s).1).1.status = Status.archived := by
    intro u hu
    rw [(syncClaudePart_preserves env _).2.1] at hu
    rw [(syncClaudePart_preserves env _).1]
    exact syncStatusPart_result_stable env.snapshot s u hu
  have h1 : syncStatusPart env.snapshot (syncClaudePart env (syncStatusPart env.snapshot s).1).1 =
      ((syncClaudePart env (syncStatusPart env.snapshot s).1).1, []) :=
    syncStatusPart_noop _ _ hq
  have h2 := syncClaudePart_idem env (syncStatusPart env.snapshot s).1
  show sync_session_status env (syncClaudePart env (syncStatusPart env.snapshot s).1).1 = _
  unfold sync_session_status
  rw [h1]
  dsimp only
  rw [h2]
  rfl

/-- Claim C3: orphan reaping kills exactly the snapshot names that carry the
reserved "clux-" prefix and equal no stored session's tmux name; in particular
it never kills a name referenced by any stored row, archived rows included. -/
theorem C3_orphan_reap_safe (snapshot : List TmuxSession) (db : List Session)
    (n : String) :
    n ∈ cleanup_orphaned_tmux snapshot db ↔
      ((∃ t ∈ snapshot, t.name = n) ∧ n.startsWith ("clux-") = true ∧
        ∀ s ∈ db, s.tmux_session ≠ some n) := by
  have htr : (((list_sessions db true none).filterMap (fun s => s.tmux_session)).contains n = false) ↔
      ∀ s ∈ db, s.tmux_session ≠ some n := by
    rw [← Bool.not_eq_true]
    simp [List.contains_eq_any_beq, List.any_eq_true, List.mem_filterMap,
      list_sessions, mem_sortByLA]
  unfold cleanup_orphaned_tmux
  simp only [List.mem_filter, List.mem_map, Bool.and_eq_true, Bool.not_eq_true']
  rw [htr]

/-- Claim C9 (supporting theorem): the session-name validator accepts the
two-character name "a" followed by a newline — Python's final regex anchor
matches just before a trailing newline — although by the stated rule every
character after the first must be alphanumeric, a hyphen or an underscore,
which a newline is not (specSessionNameValid rejects it). -/
theorem C9_validator_accepts_trailing_newline :
    (validate_session_name ("a\n")).1 = true ∧
    specSessionNameValid ("a\n") = false := by
  decide

theorem findSessionIndex_of_nodup (l : List Session) (i : Nat) (s : Session)
    (h : l[i]? = some s) (hnd : (l.map Session.id).Nodup) :
    findSessionIndex s.id l = some i := by
  induction l generalizing i with
  | nil => cases h
  | cons a rest ih =>
      cases i with
      | zero =>
          rw [List.getElem?_cons_zero] at h
          injection h with h2
          subst h2
          simp [findSessionIndex]
      | succ j =>
          rw [List.getElem?_cons_succ] at h
          have hmem : s ∈ rest := List.getElem?_mem h
          have hidne : a.id ≠ s.id := by
            intro he
            have hin : s.id ∈ rest.map Session.id := List.mem_map_of_mem _ hmem
            rw [← he] at hin
            exact (List.nodup_cons.mp hnd).1 hin
          simp only [findSessionIndex]
          rw [if_neg (by simpa using hidne)]
          rw [ih j h (List.nodup_cons.mp hnd).2]
          rfl

theorem nextStep_get (l : List Session) (i : Nat) (h : i < l.length)
    (hnd : (l.map Session.id).Nodup) (h2 : 2 ≤ l.length) :
    nextStep l (l.get ⟨i, h⟩) =
      l.get ⟨(i + 1) % l.length, Nat.mod_lt _ (by omega)⟩ := by
  have hidx : findSessionIndex (l.get ⟨i, h⟩).id l = some i :=
    findSessionIndex_of_nodup l i _ (by simp) hnd
  have hm : (i + 1) % l.length < l.length := Nat.mod_lt _ (by omega)
  unfold nextStep next_cmd_select
  rw [if_neg (by omega : ¬ l.length ≤ 1)]
  rw [hidx]
  dsimp only
  rw [List.getD_eq_getElem?_getD, List.getElem?_eq_getElem hm]
  rfl

theorem nextStep_iterate (l : List Session) (hnd : (l.map Session.id).Nodup)
    (h2 : 2 ≤ l.length) (k i : Nat) (h : i < l.length) :
    (nextStep l)^[k] (l.get ⟨i, h⟩) =
      l.get ⟨(i + k) % l.length, Nat.mod_lt _ (by omega)⟩ := by
  induction k generalizing i with
  | zero =>
      simp only [Function.iterate_zero, id]
      congr 1
      exact Fin.ext (by simp [Nat.mod_eq_of_lt h])
  | succ m ih =>
      rw [Function.iterate_succ_apply]
      rw [nextStep_get l i h hnd h2]
      rw [ih ((i + 1) % l.length) (Nat.mod_lt _ (by omega))]
      congr 1
      apply Fin.ext
      simp only
      rw [Nat.mod_add_mod]
      congr 1
      omega

/-- Claim C6: on the sibling list of a working directory (its non-archived
sessions in store order), the next-selection reports "no other session" when
the list has exactly one entry, and on a list of N distinct sessions (N at
least 2, row ids pairwise distinct) stepping to the sibling at
(index + 1) mod N a total of N times returns to the starting session. -/
theorem C6_next_cycles (db : List Session) (wd : String) (s : Session) :
    ((sessionsFor db wd).length = 1 →
      next_cmd_select (sessionsFor db wd) s = NextResult.noOther) ∧
    (2 ≤ (sessionsFor db wd).length →
      ((sessionsFor db wd).map Session.id).Nodup →
      s ∈ sessionsFor db wd →
      (nextStep (sessionsFor db wd))^[(sessionsFor db wd).length] s = s) := by
  constructor
  · intro h1
    unfold next_cmd_select
    rw [if_pos (by omega)]
  · intro h2 hnd hmem
    obtain ⟨⟨i, h⟩, hget⟩ := List.mem_iff_get.mp hmem
    rw [← hget]
    rw [nextStep_iterate _ hnd h2 _ i h]
    congr 1
    apply Fin.ext
    simp only
    rw [Nat.add_mod_right]
    exact Nat.mod_eq_of_lt h

/-- Claim C6 (witness input): most recently active session of directory "p". -/
def c6a : Session :=
  { id := 11, name := "a", working_directory := "p", status := Status.idle,
    created_at := 0, last_activity := some 2 }

/-- Claim C6 (witness input): older sibling session of directory "p". -/
def c6b : Session :=
  { id := 12, name := "b", working_directory := "p", status := Status.idle,
    created_at := 0, last_activity := some 1 }

/-- Claim C6 (witness input): registry with the two siblings. -/
def c6db : List Session := [c6a, c6b]

/-- Claim C6, witness: with two sessions in "p", stepping next twice from the
first session returns to it. -/
theorem C6_next_cycles_witness :
    2 ≤ (sessionsFor c6db "p").length ∧
    (nextStep (sessionsFor c6db "p"))^[(sessionsFor c6db "p").length] c6a = c6a :=
  ⟨by decide, (C6_next_cycles c6db "p" c6a).2 (by decide) (by decide) (by decide)⟩
